import Mathlib

/-!
Shallow embedding of `bdn/java/TypeConversion.h` (Android platform layer of the
boden framework), and proofs about its type-conversion dispatch table.

The header defines the class template `TypeConversion<NATIVE_TYPE>` together
with explicit specializations for `std::string`, `bdn::Color`, `jobject`,
`int`, `short`, `double`, `float`, `int64_t`, `char32_t`, `int8_t`, `bool`
and `void`, plus two free convenience functions that delegate to the table.

Each specialization is embedded as a value of `TypeConversionTable`:
`getJavaSignature` is the JNI signature string, `nativeToJava` threads the
explicit `createdJavaObjects` list (the C++ takes it by reference), and
`takeOwnershipOfJavaValueAndConvertToNative` threads the set of live local
references (the "frame") so that consumption of the passed local handle is
observable in the model.

`bdn::java::Reference`, `bdn::Color`, the managed string object model
(`_createJString` / `_getStringFromJava`) and the JNI ABI itself are external
collaborators of this header (their definitions are not part of this file);
they are modelled from the spec, as noted on each definition.

Machine integer types on which the header performs no arithmetic (`jint`,
`jshort`, `jlong`, `jbyte`) are embedded as `Int`; the floating point types
(`jdouble`, `jfloat`) are embedded as opaque 64/32-bit patterns (`Nat`),
which is faithful because every function on them is a pass-through.  The one
place a width matters is the cast `(jchar)arg` in the `char32_t`
specialization: `jchar` is the JNI 16-bit unsigned char type, so the cast is
reduction modulo 2^16.
-/

namespace BdnJava

/-- Managed object handle (`jobject`).  The payload distinguishes the null
reference, managed string objects (carrying their contents, so that the
spec-modelled string operations are executable) and other objects
(identified by an abstract id). -/
inductive JObj where
  | null : JObj
  | strObj : String → JObj
  | raw : Nat → JObj
deriving DecidableEq, Repr

/-- Modelled from the spec: `bdn::java::Reference`, the managed-runtime
reference-counting wrapper, is an external collaborator of this header.
Only its payload (the wrapped handle) matters for the claims. -/
structure Reference where
  jobj : JObj
deriving DecidableEq, Repr

/-- The set of live local references of the current JNI frame, modelled as a
list of handles.  Consuming a local handle removes it from the frame. -/
abbrev Frame := List JObj

/-- Modelled from the spec: `Reference::convertAndDestroyOwnedLocal` takes
ownership of a local handle: it returns a `Reference` wrapping the object
and destroys (removes) the local entry from the current frame. -/
def Reference.convertAndDestroyOwnedLocal (j : JObj) (f : Frame) : Reference × Frame :=
  (⟨j⟩, f.erase j)

/-- Accessor `Reference::getJObject`. -/
def Reference.getJObject (r : Reference) : JObj := r.jobj

/-- Modelled from the spec: `TypeConversionBase_::_createJString` (defined
outside this header) creates a new managed `java.lang.String` object with the
given contents and stores a reference to it in the `createdJavaObjects`
list, returning the new handle. -/
def createJString (s : String) (createdJavaObjects : List Reference) : JObj × List Reference :=
  (JObj.strObj s, createdJavaObjects ++ [⟨JObj.strObj s⟩])

/-- Modelled from the spec: `TypeConversionBase_::_getStringFromJava` (defined
outside this header) reads the contents of a managed string object. -/
def getStringFromJava (r : Reference) : String :=
  match r.jobj with
  | JObj.strObj s => s
  | _ => ""

/-- Modelled from the spec: `bdn::Color` is an external value type; the header
only uses its packed alpha-first integer representation. -/
structure Color where
  packedAlphaFirst : Nat
deriving DecidableEq, Repr

/-- Accessor `Color::asIntAlphaFirst` (external, modelled from the spec). -/
def Color.asIntAlphaFirst (c : Color) : Nat := c.packedAlphaFirst

/-- Constructor `Color::fromIntAlphaFirst` (external, modelled from the spec). -/
def Color.fromIntAlphaFirst (n : Nat) : Color := ⟨n⟩

/-- Modelled from the spec: the JNI ABI constant `JNI_FALSE`. -/
def JNI_FALSE : Nat := 0

/-- Modelled from the spec: the JNI ABI constant `JNI_TRUE`. -/
def JNI_TRUE : Nat := 1

/-- JNI 32-bit signed integer type; no arithmetic is performed on it. -/
abbrev jint := Int

/-- JNI 16-bit signed integer type; no arithmetic is performed on it. -/
abbrev jshort := Int

/-- JNI 64-bit signed integer type; no arithmetic is performed on it. -/
abbrev jlong := Int

/-- JNI 8-bit signed integer type; no arithmetic is performed on it. -/
abbrev jbyte := Int

/-- JNI 16-bit unsigned char type, as a value below 2^16. -/
abbrev jchar := Nat

/-- JNI 8-bit unsigned boolean type, as a value below 2^8. -/
abbrev jboolean := Nat

/-- JNI double type, as an opaque 64-bit pattern (only passed through). -/
abbrev jdouble := Nat

/-- JNI float type, as an opaque 32-bit pattern (only passed through). -/
abbrev jfloat := Nat

/-- JNI object handle type. -/
abbrev jobject := JObj

/-- A native class derived from `bdn::java::wrapper::JObject`: it holds a
`Reference` to its managed object, obtainable via `getRef_`.  This is the
`NATIVE_TYPE` of the primary (generic) `TypeConversion` template. -/
structure JObjectWrapper where
  ref : Reference
deriving DecidableEq, Repr

/-- Accessor `getRef_` of `bdn::java::wrapper::JObject`. -/
def JObjectWrapper.getRef_ (o : JObjectWrapper) : Reference := o.ref

/-- One entry of the type-indexed dispatch table: the embedding of one
`TypeConversion` specialization.  `nativeToJava` threads the
`createdJavaObjects` list (C++ passes it by reference);
`takeOwnershipOfJavaValueAndConvertToNative` threads the local-reference
frame so that handle consumption is observable. -/
structure TypeConversionTable (NativeType JavaType : Type) where
  getJavaSignature : String
  nativeToJava : NativeType → List Reference → JavaType × List Reference
  takeOwnershipOfJavaValueAndConvertToNative : JavaType → Frame → NativeType × Frame

/-- The primary template `TypeConversion<NATIVE_TYPE>` for JObject-derived
native types.  Its signature string comes from the external class metadata
registry (`NativeType::getStaticClass_().getSignature_()`), passed here as
the parameter `classSig`. -/
def TypeConversion_generic (classSig : String) : TypeConversionTable JObjectWrapper jobject where
  getJavaSignature := classSig
  nativeToJava := fun arg createdJavaObjects => (arg.getRef_.getJObject, createdJavaObjects)
  takeOwnershipOfJavaValueAndConvertToNative := fun arg f =>
    let p := Reference.convertAndDestroyOwnedLocal arg f
    (⟨p.1⟩, p.2)

/-- Specialization `TypeConversion<std::string>`. -/
def TypeConversion_string : TypeConversionTable String jobject where
  getJavaSignature := "Ljava/lang/String;"
  nativeToJava := fun arg createdJavaObjects => createJString arg createdJavaObjects
  takeOwnershipOfJavaValueAndConvertToNative := fun arg f =>
    let p := Reference.convertAndDestroyOwnedLocal arg f
    (getStringFromJava p.1, p.2)

/-- Specialization `TypeConversion<bdn::Color>` (JavaType `jint`, holding the
packed alpha-first color value). -/
def TypeConversion_Color : TypeConversionTable Color Nat where
  getJavaSignature := "I"
  nativeToJava := fun arg createdJavaObjects => (arg.asIntAlphaFirst, createdJavaObjects)
  takeOwnershipOfJavaValueAndConvertToNative := fun arg f => (Color.fromIntAlphaFirst arg, f)

/-- Specialization `TypeConversion<jobject>`. -/
def TypeConversion_jobject : TypeConversionTable jobject jobject where
  getJavaSignature := "Ljava/lang/Object;"
  nativeToJava := fun arg createdJavaObjects => (arg, createdJavaObjects)
  takeOwnershipOfJavaValueAndConvertToNative := fun arg f => (arg, f)

/-- Specialization `TypeConversion<int>`. -/
def TypeConversion_int : TypeConversionTable Int jint where
  getJavaSignature := "I"
  nativeToJava := fun arg createdJavaObjects => (arg, createdJavaObjects)
  takeOwnershipOfJavaValueAndConvertToNative := fun arg f => (arg, f)

/-- Specialization `TypeConversion<short>`. -/
def TypeConversion_short : TypeConversionTable Int jshort where
  getJavaSignature := "S"
  nativeToJava := fun arg createdJavaObjects => (arg, createdJavaObjects)
  takeOwnershipOfJavaValueAndConvertToNative := fun arg f => (arg, f)

/-- Specialization `TypeConversion<double>`. -/
def TypeConversion_double : TypeConversionTable Nat jdouble where
  getJavaSignature := "D"
  nativeToJava := fun arg createdJavaObjects => (arg, createdJavaObjects)
  takeOwnershipOfJavaValueAndConvertToNative := fun arg f => (arg, f)

/-- Specialization `TypeConversion<float>`. -/
def TypeConversion_float : TypeConversionTable Nat jfloat where
  getJavaSignature := "F"
  nativeToJava := fun arg createdJavaObjects => (arg, createdJavaObjects)
  takeOwnershipOfJavaValueAndConvertToNative := fun arg f => (arg, f)

/-- Specialization `TypeConversion<int64_t>`. -/
def TypeConversion_int64 : TypeConversionTable Int jlong where
  getJavaSignature := "J"
  nativeToJava := fun arg createdJavaObjects => (arg, createdJavaObjects)
  takeOwnershipOfJavaValueAndConvertToNative := fun arg f => (arg, f)

/-- Specialization `TypeConversion<char32_t>`.  `nativeToJava` performs the
cast `(jchar)arg`: reduction of the 32-bit code point modulo 2^16.  The
reverse direction widens the 16-bit `jchar` value, which preserves it. -/
def TypeConversion_char32 : TypeConversionTable Nat jchar where
  getJavaSignature := "C"
  nativeToJava := fun arg createdJavaObjects => (arg % 65536, createdJavaObjects)
  takeOwnershipOfJavaValueAndConvertToNative := fun arg f => (arg, f)

/-- Specialization `TypeConversion<int8_t>`. -/
def TypeConversion_int8 : TypeConversionTable Int jbyte where
  getJavaSignature := "B"
  nativeToJava := fun arg createdJavaObjects => (arg, createdJavaObjects)
  takeOwnershipOfJavaValueAndConvertToNative := fun arg f => (arg, f)

/-- Specialization `TypeConversion<bool>`: `nativeToJava` returns `JNI_TRUE`
or `JNI_FALSE`; the reverse direction is `arg != JNI_FALSE`. -/
def TypeConversion_bool : TypeConversionTable Bool jboolean where
  getJavaSignature := "Z"
  nativeToJava := fun arg createdJavaObjects =>
    ((if arg then JNI_TRUE else JNI_FALSE), createdJavaObjects)
  takeOwnershipOfJavaValueAndConvertToNative := fun arg f => (decide (arg ≠ JNI_FALSE), f)

/-- Specialization `TypeConversion<void>`: its two member functions take no
arguments and return void, so it does not fit the table shape and is
embedded as three standalone members. -/
def TypeConversionVoid_getJavaSignature : String := "V"

/-- The void specialization's `nativeToJava`: an empty body returning void. -/
def TypeConversionVoid_nativeToJava : Unit := ()

/-- The void specialization's `takeOwnershipOfJavaValueAndConvertToNative`:
an empty body returning void. -/
def TypeConversionVoid_takeOwnershipOfJavaValueAndConvertToNative : Unit := ()

/-- The free convenience function `bdn::java::nativeToJava`: it applies
`static_cast` to the decayed type (the identity at value level, written `id`
here) and delegates to the dispatch-table entry for the type.  In C++ the
table entry is selected implicitly by the template argument; here it is the
explicit parameter `tc`. -/
def nativeToJava {N J : Type} (tc : TypeConversionTable N J) (nativeValue : N)
    (createdJavaObjects : List Reference) : J × List Reference :=
  tc.nativeToJava (id nativeValue) createdJavaObjects

/-- The free convenience function
`bdn::java::takeOwnershipOfJavaValueAndConvertToNative`: delegates to the
dispatch-table entry for the type. -/
def takeOwnershipOfJavaValueAndConvertToNative {N J : Type} (tc : TypeConversionTable N J)
    (javaValue : J) (f : Frame) : N × Frame :=
  tc.takeOwnershipOfJavaValueAndConvertToNative javaValue f

/-- The C++ function-local `static std::string sig(...)` of each
`getJavaSignature` body: on the first call the initializer runs and the
result is cached; later calls return the cached value. -/
def staticLocalString (compute : Unit → String) : Option String → String × Option String
  | none => (compute (), some (compute ()))
  | some s => (s, some s)

/-- The cache state of the function-local static after `n` calls. -/
def staticLocalState (compute : Unit → String) : Nat → Option String
  | 0 => none
  | Nat.succ n => (staticLocalString compute (staticLocalState compute n)).2

/-- The string returned by call number `n` (0-based) of a `getJavaSignature`
body whose static local is initialized by `compute`. -/
def getJavaSignatureNthCall (compute : Unit → String) (n : Nat) : String :=
  (staticLocalString compute (staticLocalState compute n)).1

theorem staticLocalState_cases (compute : Unit → String) (n : Nat) :
    staticLocalState compute n = none ∨ staticLocalState compute n = some (compute ()) := by
  induction n with
  | zero => exact Or.inl rfl
  | succ n ih =>
    rcases ih with h | h <;> simp [staticLocalState, staticLocalString, h]

theorem getJavaSignatureNthCall_const (compute : Unit → String) (n : Nat) :
    getJavaSignatureNthCall compute n = compute () := by
  rcases staticLocalState_cases compute n with h | h <;>
    simp [getJavaSignatureNthCall, staticLocalString, h]

/-- Determinism of a two-argument function: two calls on equal arguments
return equal results. -/
def Deterministic2 {α β γ : Type} (f : α → β → γ) : Prop :=
  ∀ a₁ a₂ b₁ b₂, a₁ = a₂ → b₁ = b₂ → f a₁ b₁ = f a₂ b₂

theorem deterministic2_of_pure {α β γ : Type} (f : α → β → γ) : Deterministic2 f := by
  intro a₁ a₂ b₁ b₂ h₁ h₂
  rw [h₁, h₂]

/-- The external runtime operations this header delegates to, in an
error-aware form: each may fail (allocation failure, invalid handle).  Used
to show that the conversion functions themselves introduce no error
branch. -/
structure ExternalOps where
  createJString : String → List Reference → Except String (JObj × List Reference)
  getStringFromJava : Reference → Except String String
  convertAndDestroyOwnedLocal : JObj → Frame → Except String (Reference × Frame)

/-- The external operations all succeed on every input. -/
def OpsTotal (ops : ExternalOps) : Prop :=
  (∀ s l, ∃ v, ops.createJString s l = Except.ok v) ∧
  (∀ r, ∃ v, ops.getStringFromJava r = Except.ok v) ∧
  (∀ j f, ∃ v, ops.convertAndDestroyOwnedLocal j f = Except.ok v)

/-- The spec-modelled (never-failing) implementations of the external
operations, wrapped into the error-aware interface. -/
def pureOps : ExternalOps where
  createJString := fun s l => Except.ok (createJString s l)
  getStringFromJava := fun r => Except.ok (getStringFromJava r)
  convertAndDestroyOwnedLocal := fun j f => Except.ok (Reference.convertAndDestroyOwnedLocal j f)

/-- Error-aware embedding of `TypeConversion<std::string>::nativeToJava`: the
body is the single external call `_createJString(arg, createdJavaObjects)`;
any failure comes from it. -/
def stringNativeToJavaE (ops : ExternalOps) (arg : String) (createdJavaObjects : List Reference) :
    Except String (JObj × List Reference) :=
  ops.createJString arg createdJavaObjects

/-- Error-aware embedding of
`TypeConversion<std::string>::takeOwnershipOfJavaValueAndConvertToNative`:
the two external calls in sequence, failures propagated unchanged. -/
def stringTakeOwnershipE (ops : ExternalOps) (arg : JObj) (f : Frame) :
    Except String (String × Frame) :=
  match ops.convertAndDestroyOwnedLocal arg f with
  | Except.error e => Except.error e
  | Except.ok p =>
    match ops.getStringFromJava p.1 with
    | Except.error e => Except.error e
    | Except.ok s => Except.ok (s, p.2)

/-- Error-aware embedding of the generic template's
`takeOwnershipOfJavaValueAndConvertToNative`: the single external call,
failure propagated unchanged. -/
def genericTakeOwnershipE (ops : ExternalOps) (arg : JObj) (f : Frame) :
    Except String (JObjectWrapper × Frame) :=
  match ops.convertAndDestroyOwnedLocal arg f with
  | Except.error e => Except.error e
  | Except.ok p => Except.ok (⟨p.1⟩, p.2)

/-- C1: every `TypeConversion` specialization in the file returns a fixed
signature string determined only by the type: int → "I", short → "S",
double → "D", float → "F", int64_t → "J", char32_t → "C", int8_t → "B",
bool → "Z", void → "V", bdn::Color → "I", std::string →
"Ljava/lang/String;", jobject → "Ljava/lang/Object;". -/
theorem spec_c1 :
    TypeConversion_int.getJavaSignature = "I" ∧
    TypeConversion_short.getJavaSignature = "S" ∧
    TypeConversion_double.getJavaSignature = "D" ∧
    TypeConversion_float.getJavaSignature = "F" ∧
    TypeConversion_int64.getJavaSignature = "J" ∧
    TypeConversion_char32.getJavaSignature = "C" ∧
    TypeConversion_int8.getJavaSignature = "B" ∧
    TypeConversion_bool.getJavaSignature = "Z" ∧
    TypeConversionVoid_getJavaSignature = "V" ∧
    TypeConversion_Color.getJavaSignature = "I" ∧
    TypeConversion_string.getJavaSignature = "Ljava/lang/String;" ∧
    TypeConversion_jobject.getJavaSignature = "Ljava/lang/Object;" := by
  repeat' apply And.intro
  all_goals rfl

/-- C2 counterexample: the claim asserts that the `jobject` specialization of
`takeOwnershipOfJavaValueAndConvertToNative` consumes the passed local
handle via `Reference::convertAndDestroyOwnedLocal`.  It does not: at the
concrete input handle `raw 5` with frame `[raw 5]`, the specialization
leaves the frame unchanged, while consuming the handle would remove it. -/
theorem spec_c2_counterexample :
    ¬ ((TypeConversion_jobject.takeOwnershipOfJavaValueAndConvertToNative
          (JObj.raw 5) [JObj.raw 5]).2
        = (Reference.convertAndDestroyOwnedLocal (JObj.raw 5) [JObj.raw 5]).2) := by
  decide

/-- C2 (amended): the generic JObject-derived template and the std::string
specialization of `takeOwnershipOfJavaValueAndConvertToNative` construct
their native value from `Reference::convertAndDestroyOwnedLocal` applied to
the argument, so the local handle is consumed (erased from the frame); the
`jobject` specialization instead returns the handle unchanged and does not
consume it. -/
theorem spec_c2 :
    (∀ (classSig : String) (a : jobject) (f : Frame),
        (TypeConversion_generic classSig).takeOwnershipOfJavaValueAndConvertToNative a f
          = (JObjectWrapper.mk (Reference.convertAndDestroyOwnedLocal a f).1,
             (Reference.convertAndDestroyOwnedLocal a f).2)) ∧
    (∀ (a : jobject) (f : Frame),
        TypeConversion_string.takeOwnershipOfJavaValueAndConvertToNative a f
          = (getStringFromJava (Reference.convertAndDestroyOwnedLocal a f).1,
             (Reference.convertAndDestroyOwnedLocal a f).2)) ∧
    (∀ (classSig : String) (a : jobject) (f : Frame),
        ((TypeConversion_generic classSig).takeOwnershipOfJavaValueAndConvertToNative a f).2
          = f.erase a) ∧
    (∀ (a : jobject) (f : Frame),
        (TypeConversion_string.takeOwnershipOfJavaValueAndConvertToNative a f).2 = f.erase a) ∧
    (∀ (a : jobject) (f : Frame),
        TypeConversion_jobject.takeOwnershipOfJavaValueAndConvertToNative a f = (a, f)) := by
  repeat' apply And.intro
  all_goals intros
  all_goals rfl

/-- C3: for int, short, double, float, int64_t, int8_t and jobject, both
`nativeToJava` and `takeOwnershipOfJavaValueAndConvertToNative` are trivial
pass-throughs: each returns its argument unchanged (and leaves the threaded
list or frame as it was). -/
theorem spec_c3 :
    (∀ (a : jint) (l : List Reference), TypeConversion_int.nativeToJava a l = (a, l)) ∧
    (∀ (j : jint) (f : Frame),
        TypeConversion_int.takeOwnershipOfJavaValueAndConvertToNative j f = (j, f)) ∧
    (∀ (a : jshort) (l : List Reference), TypeConversion_short.nativeToJava a l = (a, l)) ∧
    (∀ (j : jshort) (f : Frame),
        TypeConversion_short.takeOwnershipOfJavaValueAndConvertToNative j f = (j, f)) ∧
    (∀ (a : jdouble) (l : List Reference), TypeConversion_double.nativeToJava a l = (a, l)) ∧
    (∀ (j : jdouble) (f : Frame),
        TypeConversion_double.takeOwnershipOfJavaValueAndConvertToNative j f = (j, f)) ∧
    (∀ (a : jfloat) (l : List Reference), TypeConversion_float.nativeToJava a l = (a, l)) ∧
    (∀ (j : jfloat) (f : Frame),
        TypeConversion_float.takeOwnershipOfJavaValueAndConvertToNative j f = (j, f)) ∧
    (∀ (a : jlong) (l : List Reference), TypeConversion_int64.nativeToJava a l = (a, l)) ∧
    (∀ (j : jlong) (f : Frame),
        TypeConversion_int64.takeOwnershipOfJavaValueAndConvertToNative j f = (j, f)) ∧
    (∀ (a : jbyte) (l : List Reference), TypeConversion_int8.nativeToJava a l = (a, l)) ∧
    (∀ (j : jbyte) (f : Frame),
        TypeConversion_int8.takeOwnershipOfJavaValueAndConvertToNative j f = (j, f)) ∧
    (∀ (a : jobject) (l : List Reference), TypeConversion_jobject.nativeToJava a l = (a, l)) ∧
    (∀ (j : jobject) (f : Frame),
        TypeConversion_jobject.takeOwnershipOfJavaValueAndConvertToNative j f = (j, f)) := by
  repeat' apply And.intro
  all_goals intros
  all_goals rfl

/-- C4 counterexample: the claim asserts `nativeToJava<char32_t>(c, list)`
equals `c` as a number for every `char32_t` value.  The body performs the
cast `(jchar)arg` with `jchar` 16 bits wide, so at the code point 65536 the
result is 0, not 65536. -/
theorem spec_c4_counterexample :
    (TypeConversion_char32.nativeToJava 65536 []).1 ≠ 65536 := by
  decide

/-- C4 (amended): `nativeToJava<char32_t>(c, list)` equals `c` reduced modulo
2^16 (hence equals `c` as a number exactly when `c < 65536`), and
`takeOwnershipOfJavaValueAndConvertToNative<char32_t>` returns its argument
unchanged. -/
theorem spec_c4 :
    (∀ (c : Nat) (l : List Reference),
        TypeConversion_char32.nativeToJava c l = (c % 65536, l)) ∧
    (∀ (c : Nat) (l : List Reference), c < 65536 →
        (TypeConversion_char32.nativeToJava c l).1 = c) ∧
    (∀ (j : jchar) (f : Frame),
        TypeConversion_char32.takeOwnershipOfJavaValueAndConvertToNative j f = (j, f)) := by
  repeat' apply And.intro
  · intro c l
    rfl
  · intro c l h
    show c % 65536 = c
    exact Nat.mod_eq_of_lt h
  · intro j f
    rfl

/-- C4 witness: the amended claim's hypothesis `c < 65536` discharged at the
concrete code point 65. -/
theorem spec_c4_witness :
    65 < 65536 ∧ (TypeConversion_char32.nativeToJava 65 []).1 = 65 :=
  ⟨by decide, spec_c4.2.1 65 [] (by decide)⟩

/-- C5: for every specialization other than std::string and the generic
JObject-derived template — int, short, double, float, int64_t, int8_t,
char32_t, bool, bdn::Color and jobject — `nativeToJava` leaves the
`createdJavaObjects` list exactly as it was, for every input value and every
initial list contents. -/
theorem spec_c5 :
    (∀ (a : jint) (l : List Reference), (TypeConversion_int.nativeToJava a l).2 = l) ∧
    (∀ (a : jshort) (l : List Reference), (TypeConversion_short.nativeToJava a l).2 = l) ∧
    (∀ (a : jdouble) (l : List Reference), (TypeConversion_double.nativeToJava a l).2 = l) ∧
    (∀ (a : jfloat) (l : List Reference), (TypeConversion_float.nativeToJava a l).2 = l) ∧
    (∀ (a : jlong) (l : List Reference), (TypeConversion_int64.nativeToJava a l).2 = l) ∧
    (∀ (a : jbyte) (l : List Reference), (TypeConversion_int8.nativeToJava a l).2 = l) ∧
    (∀ (a : Nat) (l : List Reference), (TypeConversion_char32.nativeToJava a l).2 = l) ∧
    (∀ (a : Bool) (l : List Reference), (TypeConversion_bool.nativeToJava a l).2 = l) ∧
    (∀ (a : Color) (l : List Reference), (TypeConversion_Color.nativeToJava a l).2 = l) ∧
    (∀ (a : jobject) (l : List Reference), (TypeConversion_jobject.nativeToJava a l).2 = l) := by
  repeat' apply And.intro
  all_goals intros
  all_goals rfl

/-- C6: no conversion function in the file signals, checks or handles an
error itself.  The conversions whose bodies call external runtime operations
(the std::string specialization and the generic template's take-ownership
direction) succeed whenever those external operations succeed — any failure
originates inside the externals — and under the spec-modelled total
externals they agree with the plain embedding; every remaining conversion
of every specialization, including the generic template's `nativeToJava`
(two external accessor calls, no error branch of its own) and the void
specialization's two empty-bodied functions, is a total closed-form
function of its inputs with no error case. -/
theorem spec_c6 :
    (∀ (ops : ExternalOps) (s : String) (l : List Reference), OpsTotal ops →
        ∃ v, stringNativeToJavaE ops s l = Except.ok v) ∧
    (∀ (ops : ExternalOps) (a : JObj) (f : Frame), OpsTotal ops →
        ∃ v, stringTakeOwnershipE ops a f = Except.ok v) ∧
    (∀ (ops : ExternalOps) (a : JObj) (f : Frame), OpsTotal ops →
        ∃ v, genericTakeOwnershipE ops a f = Except.ok v) ∧
    (∀ (s : String) (l : List Reference),
        stringNativeToJavaE pureOps s l
          = Except.ok (TypeConversion_string.nativeToJava s l)) ∧
    (∀ (a : JObj) (f : Frame),
        stringTakeOwnershipE pureOps a f
          = Except.ok (TypeConversion_string.takeOwnershipOfJavaValueAndConvertToNative a f)) ∧
    (∀ (classSig : String) (a : JObj) (f : Frame),
        genericTakeOwnershipE pureOps a f
          = Except.ok
              ((TypeConversion_generic classSig).takeOwnershipOfJavaValueAndConvertToNative
                a f)) ∧
    (∀ (classSig : String) (a : JObjectWrapper) (l : List Reference),
        (TypeConversion_generic classSig).nativeToJava a l = (a.getRef_.getJObject, l)) ∧
    (∀ (a : jint) (l : List Reference), TypeConversion_int.nativeToJava a l = (a, l)) ∧
    (∀ (j : jint) (f : Frame),
        TypeConversion_int.takeOwnershipOfJavaValueAndConvertToNative j f = (j, f)) ∧
    (∀ (a : jshort) (l : List Reference), TypeConversion_short.nativeToJava a l = (a, l)) ∧
    (∀ (j : jshort) (f : Frame),
        TypeConversion_short.takeOwnershipOfJavaValueAndConvertToNative j f = (j, f)) ∧
    (∀ (a : jdouble) (l : List Reference), TypeConversion_double.nativeToJava a l = (a, l)) ∧
    (∀ (j : jdouble) (f : Frame),
        TypeConversion_double.takeOwnershipOfJavaValueAndConvertToNative j f = (j, f)) ∧
    (∀ (a : jfloat) (l : List Reference), TypeConversion_float.nativeToJava a l = (a, l)) ∧
    (∀ (j : jfloat) (f : Frame),
        TypeConversion_float.takeOwnershipOfJavaValueAndConvertToNative j f = (j, f)) ∧
    (∀ (a : jlong) (l : List Reference), TypeConversion_int64.nativeToJava a l = (a, l)) ∧
    (∀ (j : jlong) (f : Frame),
        TypeConversion_int64.takeOwnershipOfJavaValueAndConvertToNative j f = (j, f)) ∧
    (∀ (a : Nat) (l : List Reference),
        TypeConversion_char32.nativeToJava a l = (a % 65536, l)) ∧
    (∀ (j : jchar) (f : Frame),
        TypeConversion_char32.takeOwnershipOfJavaValueAndConvertToNative j f = (j, f)) ∧
    (∀ (a : jbyte) (l : List Reference), TypeConversion_int8.nativeToJava a l = (a, l)) ∧
    (∀ (j : jbyte) (f : Frame),
        TypeConversion_int8.takeOwnershipOfJavaValueAndConvertToNative j f = (j, f)) ∧
    (∀ (a : Bool) (l : List Reference),
        TypeConversion_bool.nativeToJava a l = ((if a then JNI_TRUE else JNI_FALSE), l)) ∧
    (∀ (j : jboolean) (f : Frame),
        TypeConversion_bool.takeOwnershipOfJavaValueAndConvertToNative j f
          = (decide (j ≠ JNI_FALSE), f)) ∧
    (∀ (a : Color) (l : List Reference),
        TypeConversion_Color.nativeToJava a l = (a.asIntAlphaFirst, l)) ∧
    (∀ (j : Nat) (f : Frame),
        TypeConversion_Color.takeOwnershipOfJavaValueAndConvertToNative j f
          = (Color.fromIntAlphaFirst j, f)) ∧
    (∀ (a : jobject) (l : List Reference), TypeConversion_jobject.nativeToJava a l = (a, l)) ∧
    (∀ (j : jobject) (f : Frame),
        TypeConversion_jobject.takeOwnershipOfJavaValueAndConvertToNative j f = (j, f)) ∧
    TypeConversionVoid_nativeToJava = () ∧
    TypeConversionVoid_takeOwnershipOfJavaValueAndConvertToNative = () := by
  repeat' apply And.intro
  · exact fun ops s l h => h.1 s l
  · intro ops a f h
    obtain ⟨p, hp⟩ := h.2.2 a f
    obtain ⟨s, hs⟩ := h.2.1 p.1
    exact ⟨(s, p.2), by simp [stringTakeOwnershipE, hp, hs]⟩
  · intro ops a f h
    obtain ⟨p, hp⟩ := h.2.2 a f
    exact ⟨(⟨p.1⟩, p.2), by simp [genericTakeOwnershipE, hp]⟩
  all_goals intros
  all_goals rfl

/-- C6 witness: the spec-modelled total external operations satisfy
`OpsTotal`, and with them the string conversion succeeds at a concrete
input. -/
theorem spec_c6_witness :
    OpsTotal pureOps ∧
    (∃ v, stringTakeOwnershipE pureOps (JObj.raw 7) [JObj.raw 7] = Except.ok v) := by
  have h : OpsTotal pureOps :=
    ⟨fun _ _ => ⟨_, rfl⟩, fun _ => ⟨_, rfl⟩, fun _ _ => ⟨_, rfl⟩⟩
  exact ⟨h, spec_c6.2.1 pureOps (JObj.raw 7) [JObj.raw 7] h⟩

/-- C7: all conversions are deterministic and free of shared mutable state
observable through the interface.  For every specialization, two calls to
`nativeToJava` with equal arguments and equal list contents return equal
results, two calls to `takeOwnershipOfJavaValueAndConvertToNative` with
equal arguments (and equal frames) return equal results, and every call to
`getJavaSignature` — modelled with its C++ function-local static cache —
returns the same string regardless of how many calls preceded it. -/
theorem spec_c7 :
    Deterministic2 TypeConversion_int.nativeToJava ∧
    Deterministic2 TypeConversion_int.takeOwnershipOfJavaValueAndConvertToNative ∧
    Deterministic2 TypeConversion_short.nativeToJava ∧
    Deterministic2 TypeConversion_short.takeOwnershipOfJavaValueAndConvertToNative ∧
    Deterministic2 TypeConversion_double.nativeToJava ∧
    Deterministic2 TypeConversion_double.takeOwnershipOfJavaValueAndConvertToNative ∧
    Deterministic2 TypeConversion_float.nativeToJava ∧
    Deterministic2 TypeConversion_float.takeOwnershipOfJavaValueAndConvertToNative ∧
    Deterministic2 TypeConversion_int64.nativeToJava ∧
    Deterministic2 TypeConversion_int64.takeOwnershipOfJavaValueAndConvertToNative ∧
    Deterministic2 TypeConversion_char32.nativeToJava ∧
    Deterministic2 TypeConversion_char32.takeOwnershipOfJavaValueAndConvertToNative ∧
    Deterministic2 TypeConversion_int8.nativeToJava ∧
    Deterministic2 TypeConversion_int8.takeOwnershipOfJavaValueAndConvertToNative ∧
    Deterministic2 TypeConversion_bool.nativeToJava ∧
    Deterministic2 TypeConversion_bool.takeOwnershipOfJavaValueAndConvertToNative ∧
    Deterministic2 TypeConversion_Color.nativeToJava ∧
    Deterministic2 TypeConversion_Color.takeOwnershipOfJavaValueAndConvertToNative ∧
    Deterministic2 TypeConversion_jobject.nativeToJava ∧
    Deterministic2 TypeConversion_jobject.takeOwnershipOfJavaValueAndConvertToNative ∧
    Deterministic2 TypeConversion_string.nativeToJava ∧
    Deterministic2 TypeConversion_string.takeOwnershipOfJavaValueAndConvertToNative ∧
    (∀ classSig, Deterministic2 (TypeConversion_generic classSig).nativeToJava) ∧
    (∀ classSig,
        Deterministic2
          (TypeConversion_generic classSig).takeOwnershipOfJavaValueAndConvertToNative) ∧
    (∀ n, getJavaSignatureNthCall (fun _ => TypeConversion_int.getJavaSignature) n
        = TypeConversion_int.getJavaSignature) ∧
    (∀ n, getJavaSignatureNthCall (fun _ => TypeConversion_short.getJavaSignature) n
        = TypeConversion_short.getJavaSignature) ∧
    (∀ n, getJavaSignatureNthCall (fun _ => TypeConversion_double.getJavaSignature) n
        = TypeConversion_double.getJavaSignature) ∧
    (∀ n, getJavaSignatureNthCall (fun _ => TypeConversion_float.getJavaSignature) n
        = TypeConversion_float.getJavaSignature) ∧
    (∀ n, getJavaSignatureNthCall (fun _ => TypeConversion_int64.getJavaSignature) n
        = TypeConversion_int64.getJavaSignature) ∧
    (∀ n, getJavaSignatureNthCall (fun _ => TypeConversion_char32.getJavaSignature) n
        = TypeConversion_char32.getJavaSignature) ∧
    (∀ n, getJavaSignatureNthCall (fun _ => TypeConversion_int8.getJavaSignature) n
        = TypeConversion_int8.getJavaSignature) ∧
    (∀ n, getJavaSignatureNthCall (fun _ => TypeConversion_bool.getJavaSignature) n
        = TypeConversion_bool.getJavaSignature) ∧
    (∀ n, getJavaSignatureNthCall (fun _ => TypeConversionVoid_getJavaSignature) n
        = TypeConversionVoid_getJavaSignature) ∧
    (∀ n, getJavaSignatureNthCall (fun _ => TypeConversion_Color.getJavaSignature) n
        = TypeConversion_Color.getJavaSignature) ∧
    (∀ n, getJavaSignatureNthCall (fun _ => TypeConversion_string.getJavaSignature) n
        = TypeConversion_string.getJavaSignature) ∧
    (∀ n, getJavaSignatureNthCall (fun _ => TypeConversion_jobject.getJavaSignature) n
        = TypeConversion_jobject.getJavaSignature) ∧
    (∀ (classSig : String) (n : Nat),
        getJavaSignatureNthCall (fun _ => classSig) n = classSig) := by
  repeat' apply And.intro
  all_goals first
    | exact deterministic2_of_pure _
    | exact fun _ => deterministic2_of_pure _
    | exact fun n => getJavaSignatureNthCall_const _ n
    | exact fun _ n => getJavaSignatureNthCall_const _ n

/-- C7 witness: determinism of the int conversion discharged at concrete
equal inputs. -/
theorem spec_c7_witness :
    TypeConversion_int.nativeToJava 3 [] = TypeConversion_int.nativeToJava 3 [] :=
  spec_c7.1 3 3 [] [] rfl rfl

/-- C8: the free convenience functions delegate exactly to the type-indexed
table: for every table entry, every value and every list or frame, the free
`nativeToJava` returns the entry's `nativeToJava` (with the same effect on
the list) and the free `takeOwnershipOfJavaValueAndConvertToNative` returns
the entry's function of the same name; instances at the int, std::string
and jobject entries are included. -/
theorem spec_c8 :
    (∀ (N J : Type) (tc : TypeConversionTable N J) (v : N) (l : List Reference),
        nativeToJava tc v l = tc.nativeToJava v l) ∧
    (∀ (N J : Type) (tc : TypeConversionTable N J) (j : J) (f : Frame),
        takeOwnershipOfJavaValueAndConvertToNative tc j f
          = tc.takeOwnershipOfJavaValueAndConvertToNative j f) ∧
    (∀ (v : jint) (l : List Reference),
        nativeToJava TypeConversion_int v l = TypeConversion_int.nativeToJava v l) ∧
    (∀ (s : String) (l : List Reference),
        nativeToJava TypeConversion_string s l = TypeConversion_string.nativeToJava s l) ∧
    (∀ (j : jobject) (f : Frame),
        takeOwnershipOfJavaValueAndConvertToNative TypeConversion_jobject j f
          = TypeConversion_jobject.takeOwnershipOfJavaValueAndConvertToNative j f) := by
  repeat' apply And.intro
  all_goals intros
  all_goals rfl

/-- C9: the bool conversion maps `true` to `JNI_TRUE` and `false` to
`JNI_FALSE`, and in the other direction maps a jboolean `j` to `true`
exactly when `j` differs from `JNI_FALSE` — every nonzero jboolean, not
only `JNI_TRUE`, converts to native `true`. -/
theorem spec_c9 :
    (∀ l : List Reference, TypeConversion_bool.nativeToJava true l = (JNI_TRUE, l)) ∧
    (∀ l : List Reference, TypeConversion_bool.nativeToJava false l = (JNI_FALSE, l)) ∧
    (∀ (j : jboolean) (f : Frame),
        ((TypeConversion_bool.takeOwnershipOfJavaValueAndConvertToNative j f).1 = true ↔
          j ≠ JNI_FALSE)) := by
  refine ⟨fun l => rfl, fun l => rfl, fun j f => ?_⟩
  show decide (j ≠ JNI_FALSE) = true ↔ j ≠ JNI_FALSE
  simp

/-- C10: round-trip through Java is the identity for the lossless value
types: for int, short, double, float, int64_t, int8_t, bool and jobject,
converting a native value to Java and taking ownership back yields the
original value, for every value, list and frame. -/
theorem spec_c10 :
    (∀ (x : jint) (l : List Reference) (f : Frame),
        (TypeConversion_int.takeOwnershipOfJavaValueAndConvertToNative
            (TypeConversion_int.nativeToJava x l).1 f).1 = x) ∧
    (∀ (x : jshort) (l : List Reference) (f : Frame),
        (TypeConversion_short.takeOwnershipOfJavaValueAndConvertToNative
            (TypeConversion_short.nativeToJava x l).1 f).1 = x) ∧
    (∀ (x : jdouble) (l : List Reference) (f : Frame),
        (TypeConversion_double.takeOwnershipOfJavaValueAndConvertToNative
            (TypeConversion_double.nativeToJava x l).1 f).1 = x) ∧
    (∀ (x : jfloat) (l : List Reference) (f : Frame),
        (TypeConversion_float.takeOwnershipOfJavaValueAndConvertToNative
            (TypeConversion_float.nativeToJava x l).1 f).1 = x) ∧
    (∀ (x : jlong) (l : List Reference) (f : Frame),
        (TypeConversion_int64.takeOwnershipOfJavaValueAndConvertToNative
            (TypeConversion_int64.nativeToJava x l).1 f).1 = x) ∧
    (∀ (x : jbyte) (l : List Reference) (f : Frame),
        (TypeConversion_int8.takeOwnershipOfJavaValueAndConvertToNative
            (TypeConversion_int8.nativeToJava x l).1 f).1 = x) ∧
    (∀ (x : Bool) (l : List Reference) (f : Frame),
        (TypeConversion_bool.takeOwnershipOfJavaValueAndConvertToNative
            (TypeConversion_bool.nativeToJava x l).1 f).1 = x) ∧
    (∀ (x : jobject) (l : List Reference) (f : Frame),
        (TypeConversion_jobject.takeOwnershipOfJavaValueAndConvertToNative
            (TypeConversion_jobject.nativeToJava x l).1 f).1 = x) := by
  repeat' apply And.intro
  all_goals intro x l f
  all_goals first
    | rfl
    | (cases x <;> rfl)

end BdnJava
